import Mathlib

/-!
Verification of the Pyntago core (pyntago/pyntago.py): board data model,
quadrant rotation, win/tie detection, the turn state machine and the three
cursor state machines. Python dicts mapping positions to players are
embedded as functions from integer pairs to optional players (a key is
present exactly when the function returns some value); every method that
posts events on the bus is embedded as a pure function returning the new
state together with the list of events posted, in posting order.
-/

namespace Pyntago

/-- Direction constants from the source (DIRECTION_UP = 0 and so on). -/
def DIRECTION_UP : Int := 0

def DIRECTION_DOWN : Int := 1

def DIRECTION_LEFT : Int := 2

def DIRECTION_RIGHT : Int := 3

/-- Color constants used to build the two players. -/
def COLOR_BLACK : Nat × Nat × Nat := (0, 0, 0)

def COLOR_WHITE : Nat × Nat × Nat := (255, 255, 255)

/-- Player = namedtuple(name, color). The tie sentinel is Player(None, None),
so both fields are optional. -/
structure Player where
  name : Option String
  color : Option (Nat × Nat × Nat)
deriving DecidableEq, Repr

def whitePlayer : Player := ⟨some "White", some COLOR_WHITE⟩

def blackPlayer : Player := ⟨some "Black", some COLOR_BLACK⟩

/-- The tie sentinel Player(None, None) returned by winner. -/
def tiePlayer : Player := ⟨none, none⟩

/-- A board is the dict mapping positions (integer pairs) to players; absent
keys are modelled by none. The data model restricts keys to the 6 by 6 grid. -/
abbrev Board := (Int × Int) → Option Player

/-- The 36 cells of the 6 by 6 grid, row-major. -/
def grid_cells : List (Int × Int) :=
  (List.range 6).flatMap fun (x : Nat) => (List.range 6).map fun (y : Nat) => ((x : Int), (y : Int))

/-- len(board): the number of occupied cells (keys range over the grid). -/
def board_len (board : Board) : Nat := (grid_cells.filterMap board).length

/-- The multiset of owners of the occupied cells of a board. -/
def board_owners (board : Board) : Multiset Player := (grid_cells.filterMap board : List Player)

/-- block_for_position from the source: the quadrant containing a position
(if chain on x < 3 and y < 3; total for integer inputs). -/
def block_for_position (p : Int × Int) : Option Int :=
  if p.1 < 3 ∧ p.2 < 3 then some 0
  else if 3 ≤ p.1 ∧ p.2 < 3 then some 1
  else if p.1 < 3 ∧ 3 ≤ p.2 then some 2
  else if 3 ≤ p.1 ∧ 3 ≤ p.2 then some 3
  else none

/-- The 9-cell footprint of a quadrant: the grid cells whose
block_for_position is that quadrant. -/
def footprint (block : Int) : List (Int × Int) :=
  grid_cells.filter fun p => block_for_position p = some block

/-- left_rotation from rotate: the list of (source, destination) pairs around
the center (x, y), one pair per ring cell plus the fixed center. -/
def left_rotation (x y : Int) : List ((Int × Int) × (Int × Int)) :=
  [((x, y - 1), (x - 1, y)),
   ((x - 1, y), (x, y + 1)),
   ((x, y + 1), (x + 1, y)),
   ((x + 1, y), (x, y - 1)),
   ((x - 1, y - 1), (x - 1, y + 1)),
   ((x - 1, y + 1), (x + 1, y + 1)),
   ((x + 1, y + 1), (x + 1, y - 1)),
   ((x + 1, y - 1), (x - 1, y - 1)),
   ((x, y), (x, y))]

/-- right_rotation from rotate: the inverse pairing. -/
def right_rotation (x y : Int) : List ((Int × Int) × (Int × Int)) :=
  [((x, y - 1), (x + 1, y)),
   ((x + 1, y), (x, y + 1)),
   ((x, y + 1), (x - 1, y)),
   ((x - 1, y), (x, y - 1)),
   ((x - 1, y + 1), (x - 1, y - 1)),
   ((x - 1, y - 1), (x + 1, y - 1)),
   ((x + 1, y - 1), (x + 1, y + 1)),
   ((x + 1, y + 1), (x - 1, y + 1)),
   ((x, y), (x, y))]

/-- The source of a position under a rotation table: if the position is the
destination of some pair the pair supplies the source, otherwise the position
is left in place. -/
def srcOf (t : List ((Int × Int) × (Int × Int))) (p : Int × Int) : Int × Int :=
  match t.find? (fun e => e.2 == p) with
  | some e => e.1
  | none => p

/-- The two loops of rotate building the new dict: every occupied source cell
is written to its destination (the destinations of a table are exactly the
9 footprint cells, pairwise distinct), and every occupied cell outside the
footprint is copied unchanged. Pointwise, the value of the new board at p is
the value of the old board at the source of p. -/
def applyTable (t : List ((Int × Int) × (Int × Int))) (board : Board) : Board :=
  fun p => board (srcOf t p)

/-- rotate(board, block, direction) from the source. The center is assigned
only for block in 0..3 and the rotation table only for direction LEFT or
RIGHT; any other input reaches an unbound local variable in Python, modelled
here by none. -/
def rotate_at (board : Board) (x y : Int) (direction : Int) : Option Board :=
  if direction = DIRECTION_LEFT then some (applyTable (left_rotation x y) board)
  else if direction = DIRECTION_RIGHT then some (applyTable (right_rotation x y) board)
  else none

def rotate (board : Board) (block : Int) (direction : Int) : Option Board :=
  if block = 0 then rotate_at board 1 1 direction
  else if block = 1 then rotate_at board 4 1 direction
  else if block = 2 then rotate_at board 1 4 direction
  else if block = 3 then rotate_at board 4 4 direction
  else none

/-- The membership test of the line scans: ((x, y), player) in board.items()
holds exactly when the board maps (x, y) to that player. -/
def is_player_at (board : Board) (player : Player) (x y : Int) : Bool :=
  decide (board (x, y) = some player)

/-- The count / max_count loop of the line checks: count is incremented on an
owned cell and reset to 0 otherwise, and max_count is overwritten with count
whenever count is incremented. The result is the final value of max_count. -/
def scan_max (flags : List Bool) : Nat :=
  (flags.foldl (fun (cm : Nat × Nat) b => if b then (cm.1 + 1, cm.1 + 1) else (0, cm.2)) (0, 0)).2

/-- check_rows: for each y in range(6), scan the cells (x, y) for x in
range(6) and succeed when max_count reaches 5. -/
def check_rows (board : Board) (player : Player) : Bool :=
  (List.range 6).any fun (y : Nat) =>
    decide (5 ≤ scan_max ((List.range 6).map fun (x : Nat) =>
      is_player_at board player (x : Int) (y : Int)))

/-- check_cols: same scan with the roles of x and y exchanged. -/
def check_cols (board : Board) (player : Player) : Bool :=
  (List.range 6).any fun (x : Nat) =>
    decide (5 ≤ scan_max ((List.range 6).map fun (y : Nat) =>
      is_player_at board player (x : Int) (y : Int)))

/-- check_diagonals: descending diagonals scan y = y_offset + x and ascending
diagonals scan y = y_offset - x + 5, for y_offset in range(-1, 2); cells with
y outside 0..5 fail the test (0 <= y < 6 and owned) and reset the count. -/
def check_diagonals (board : Board) (player : Player) : Bool :=
  (([-1, 0, 1] : List Int).any fun y_offset =>
    decide (5 ≤ scan_max ((List.range 6).map fun (x : Nat) =>
      let y := y_offset + (x : Int)
      decide (0 ≤ y ∧ y < 6) && is_player_at board player (x : Int) y)))
  ||
  (([-1, 0, 1] : List Int).any fun y_offset =>
    decide (5 ≤ scan_max ((List.range 6).map fun (x : Nat) =>
      let y := y_offset - (x : Int) + 5
      decide (0 ≤ y ∧ y < 6) && is_player_at board player (x : Int) y)))

/-- The per-player win test of winner (line 768 of the source). -/
def win_condition (board : Board) (player : Player) : Bool :=
  check_cols board player || check_rows board player || check_diagonals board player

/-- winner(board, players): a full board is an immediate tie; otherwise the
players satisfying the win test are collected in order, two winners give the
tie sentinel, one winner is returned, and none gives None. -/
def winner (board : Board) (players : List Player) : Option Player :=
  if board_len board = 36 then some tiePlayer
  else
    match players.filter (fun player => win_condition board player) with
    | [p] => some p
    | [_, _] => some tiePlayer
    | _ => none

/-! Spec-side win rule, written from the words of the specification: a player
wins when one of the 6 rows, 6 columns, 3 descending diagonals (offsets
-1, 0, +1) or 3 ascending diagonals contains a contiguous run of at least 5
cells occupied by that player. -/

/-- Row y of the grid, as the spec lists it. -/
def spec_row (y : Nat) : List (Int × Int) :=
  (List.range 6).map fun (x : Nat) => ((x : Int), (y : Int))

/-- Column x of the grid. -/
def spec_col (x : Nat) : List (Int × Int) :=
  (List.range 6).map fun (y : Nat) => ((x : Int), (y : Int))

/-- Descending diagonal at offset o from the main descending diagonal: the
in-grid cells (x, o + x). -/
def spec_desc (o : Int) : List (Int × Int) :=
  (List.range 6).filterMap fun (x : Nat) =>
    let y := o + (x : Int)
    if 0 ≤ y ∧ y < 6 then some ((x : Int), y) else none

/-- Ascending diagonal at offset o: the in-grid cells (x, o - x + 5). -/
def spec_asc (o : Int) : List (Int × Int) :=
  (List.range 6).filterMap fun (x : Nat) =>
    let y := o - (x : Int) + 5
    if 0 ≤ y ∧ y < 6 then some ((x : Int), y) else none

/-- The 18 lines the spec enumerates. -/
def spec_lines : List (List (Int × Int)) :=
  ((List.range 6).map spec_row) ++ ((List.range 6).map spec_col)
    ++ (([-1, 0, 1] : List Int).map spec_desc) ++ (([-1, 0, 1] : List Int).map spec_asc)

/-- A contiguous run of at least 5 true flags: some window of 5 consecutive
entries is all true. -/
def spec_run5 (flags : List Bool) : Bool :=
  (List.range flags.length).any fun i =>
    decide (i + 5 ≤ flags.length) && ((List.range 5).all fun j => flags.getD (i + j) false)

/-- The win rule as the spec states it: some line contains a contiguous run
of at least 5 cells occupied by the player. -/
def spec_line_win (board : Board) (player : Player) : Bool :=
  spec_lines.any fun line => spec_run5 (line.map fun p => is_player_at board player p.1 p.2)

/-! Turn state machine (class Game) and the three cursor state machines.
Methods that post events return the new state together with the list of
events posted, in posting order. Game events carry the posting game; the
cursors only read current_player from it, so the embedded events carry the
current player at posting time. -/

/-- Game state constants (Python string constants). -/
def STATE_PREPARING : String := "preparing"

def STATE_MOVE : String := "awaiting move"

def STATE_SELECT : String := "awaiting selection"

def STATE_ROTATE : String := "awaiting rotation"

def STATE_FINISHED : String := "game finished"

/-- The game events posted by the Game model (payload: the current player at
posting time, for the events whose consumers read it). -/
inductive GEvent where
  | boardBuilt : GEvent
  | moveUI : Player → GEvent
  | blockSelectionUI : Player → GEvent
  | blockRotationUI : Player → GEvent
  | finishedUI : GEvent
  | messageUpdate : GEvent
deriving DecidableEq, Repr

/-- The mutable fields of Game that the turn logic reads and writes. The
cursors are separate models (below); the board is owned by the game. -/
structure GameState where
  state : String
  players : List Player
  current_player : Player
  message : Option String
  move_count : Nat
  board : Board

/-- str(None) as Python renders a missing name inside format. -/
def player_name_str (p : Player) : String :=
  match p.name with
  | some s => s
  | none => "None"

/-- update_message: without an argument the turn message is recomputed from
the current player and state, otherwise the given message is stored; a
message update event is posted either way. -/
def update_message (g : GameState) (message : Option String) : GameState × List GEvent :=
  match message with
  | none =>
      ({g with message := some (player_name_str g.current_player ++ "\x27s turn, " ++ g.state)},
       [GEvent.messageUpdate])
  | some m => ({g with message := some m}, [GEvent.messageUpdate])

/-- check_winner: run winner on the board; a tie sentinel or a named winner
moves the state to finished and updates the message, returning true; no
winner returns false with nothing posted. -/
def check_winner (g : GameState) : GameState × List GEvent × Bool :=
  match winner g.board g.players with
  | some w =>
      if w.name = none then
        let g1 := {g with state := STATE_FINISHED}
        let r := update_message g1 (some (player_name_str (g.players.getD 0 tiePlayer)
          ++ " - " ++ player_name_str (g.players.getD 1 tiePlayer) ++ " tie!"))
        (r.1, r.2, true)
      else
        let g1 := {g with state := STATE_FINISHED}
        let r := update_message g1 (some (player_name_str w ++ " wins!"))
        (r.1, r.2, true)
  | none => (g, [], false)

/-- move_finished: a select on an occupied cell is rejected (message only,
then the move UI event re-arms the cell cursor); otherwise the state moves to
awaiting selection, the cell is written, the block selection UI event is
posted, and check_winner either short-circuits to finished (posting the
finished UI event) or the turn message is recomputed. -/
def move_finished (g : GameState) (pos : Int × Int) : GameState × List GEvent :=
  if (g.board pos).isSome then
    let r := update_message g (some "Invalid move")
    (r.1, r.2 ++ [GEvent.moveUI r.1.current_player])
  else
    let g1 := {g with state := STATE_SELECT,
                      board := fun q => if q = pos then some g.current_player else g.board q}
    let e1 := [GEvent.blockSelectionUI g1.current_player]
    let r := check_winner g1
    if r.2.2 then (r.1, e1 ++ r.2.1 ++ [GEvent.finishedUI])
    else
      let r2 := update_message r.1 none
      (r2.1, e1 ++ r.2.1 ++ r2.2)

/-- Cursor state constants (STATE_INACTIVE = 0, STATE_ACTIVE = 1 in each of
the three cursor classes). -/
def STATE_INACTIVE : Nat := 0

def STATE_ACTIVE : Nat := 1

/-- Notifications a cursor posts about itself. -/
inductive CursorNotice where
  | placed : CursorNotice
  | moved : CursorNotice
  | hidden : CursorNotice
  | selected : CursorNotice
deriving DecidableEq, Repr

/-- Model of class BlockCursor. -/
structure BlockCursor where
  start_block : Int
  block : Option Int
  player : Option Player
  state : Nat

namespace BlockCursor

/-- place: a no-op while active; otherwise select the start block, take the
player, become active and post the place event. -/
def place (c : BlockCursor) (player : Player) : BlockCursor × List CursorNotice :=
  if c.state = STATE_ACTIVE then (c, [])
  else ({c with block := some c.start_block, player := some player, state := STATE_ACTIVE},
        [CursorNotice.placed])

/-- hide: a no-op while active; only when not active is the state set to
inactive and the hide event posted. -/
def hide (c : BlockCursor) : BlockCursor × List CursorNotice :=
  if c.state = STATE_ACTIVE then (c, [])
  else ({c with state := STATE_INACTIVE}, [CursorNotice.hidden])

/-- select: a no-op while inactive; otherwise deactivate and post the select
event. -/
def select (c : BlockCursor) : BlockCursor × List CursorNotice :=
  if c.state = STATE_INACTIVE then (c, [])
  else ({c with state := STATE_INACTIVE}, [CursorNotice.selected])

end BlockCursor

/-- Model of class PositionCursor. -/
structure PositionCursor where
  start_position : Int × Int
  position : Option (Int × Int)
  player : Option Player
  state : Nat

namespace PositionCursor

/-- place: a no-op while active; otherwise take the player, select the start
position, become active and post the place event. -/
def place (c : PositionCursor) (player : Player) : PositionCursor × List CursorNotice :=
  if c.state = STATE_ACTIVE then (c, [])
  else ({c with player := some player, position := some c.start_position, state := STATE_ACTIVE},
        [CursorNotice.placed])

/-- hide: a no-op while active; only when not active is the state set to
inactive and the hide event posted. -/
def hide (c : PositionCursor) : PositionCursor × List CursorNotice :=
  if c.state = STATE_ACTIVE then (c, [])
  else ({c with state := STATE_INACTIVE}, [CursorNotice.hidden])

/-- select: a no-op while inactive; otherwise deactivate and post the select
position cursor event consumed by the game. -/
def select (c : PositionCursor) : PositionCursor × List CursorNotice :=
  if c.state = STATE_INACTIVE then (c, [])
  else ({c with state := STATE_INACTIVE}, [CursorNotice.selected])

/-- The game-UI arms of PositionCursor.notify: the move UI event places the
cursor for the posted current player, the block selection UI event hides it.
The request arms are the keyboard routing and are modelled by calling the
corresponding method directly. -/
def notifyGame (c : PositionCursor) (e : GEvent) : PositionCursor × List CursorNotice :=
  match e with
  | GEvent.moveUI pl => c.place pl
  | GEvent.blockSelectionUI _ => c.hide
  | _ => (c, [])

end PositionCursor

/-- Model of class DirectionCursor. -/
structure DirectionCursor where
  direction : Option Int
  player : Option Player
  state : Nat

namespace DirectionCursor

/-- place: a no-op while active; otherwise take the player, clear the
direction, become active and post the place event. -/
def place (c : DirectionCursor) (player : Player) : DirectionCursor × List CursorNotice :=
  if c.state = STATE_ACTIVE then (c, [])
  else ({c with player := some player, state := STATE_ACTIVE, direction := none},
        [CursorNotice.placed])

/-- hide: a no-op while active; only when not active is the state set to
inactive and the hide event posted. -/
def hide (c : DirectionCursor) : DirectionCursor × List CursorNotice :=
  if c.state = STATE_ACTIVE then (c, [])
  else ({c with state := STATE_INACTIVE}, [CursorNotice.hidden])

/-- select: a no-op while inactive or while no direction has been chosen;
otherwise deactivate and post the select event. -/
def select (c : DirectionCursor) : DirectionCursor × List CursorNotice :=
  if c.state = STATE_INACTIVE then (c, [])
  else if ¬ (c.direction = some DIRECTION_LEFT ∨ c.direction = some DIRECTION_RIGHT) then (c, [])
  else ({c with state := STATE_INACTIVE}, [CursorNotice.selected])

end DirectionCursor

/-- A select fired on the cell cursor, with the synchronous dispatch that
follows: the cursor deactivates and posts its select event; the game, in the
awaiting-move state, runs move_finished on the selected position; the events
the game posts are then delivered to the cell cursor in posting order. The
cell cursor reactions post no event any core component consumes, so
delivering them after move_finished returns is equivalent to the recursive
dispatch of the bus. -/
def select_on_cursor (g : GameState) (pc : PositionCursor) : GameState × PositionCursor :=
  if pc.state = STATE_INACTIVE then (g, pc)
  else
    let pc1 : PositionCursor := {pc with state := STATE_INACTIVE}
    if g.state = STATE_MOVE then
      match pc1.position with
      | some pos =>
          let r := move_finished g pos
          (r.1, r.2.foldl (fun c e => (PositionCursor.notifyGame c e).1) pc1)
      | none => (g, pc1)
    else (g, pc1)

/-! Concrete boards and game states used as witnesses. -/

/-- The four-corner board of the test suite (alternating owners). -/
def cornersBoard : Board := fun p =>
  if p = ((0 : Int), (0 : Int)) then some whitePlayer
  else if p = ((5 : Int), (5 : Int)) then some blackPlayer
  else if p = ((0 : Int), (5 : Int)) then some whitePlayer
  else if p = ((5 : Int), (0 : Int)) then some blackPlayer
  else none

/-- The two-vertical-stripe board of the test suite: all of column x = 0 is
white and all of column x = 1 is black (12 cells). -/
def stripesBoard : Board := fun p =>
  if p.1 = 0 ∧ 0 ≤ p.2 ∧ p.2 < 6 then some whitePlayer
  else if p.1 = 1 ∧ 0 ≤ p.2 ∧ p.2 < 6 then some blackPlayer
  else none

/-- A full 36-cell board whose only winning line is row y = 0, all white:
rows 1, 3, 5 are BBWWBB and rows 2, 4 are WWBBWW, so no other line has a run
of five for either player. -/
def fullBoard : Board := fun p =>
  if 0 ≤ p.1 ∧ p.1 < 6 then
    (if p.2 = 0 then some whitePlayer
     else if p.2 = 1 ∨ p.2 = 3 ∨ p.2 = 5 then
       (if p.1 = 2 ∨ p.1 = 3 then some whitePlayer else some blackPlayer)
     else if p.2 = 2 ∨ p.2 = 4 then
       (if p.1 = 2 ∨ p.1 = 3 then some blackPlayer else some whitePlayer)
     else none)
  else none

/-- A board where white already owns (0,0)..(3,0), so that placing white on
(4,0) completes a row of five. -/
def almostWonBoard : Board := fun p =>
  if p.2 = 0 ∧ 0 ≤ p.1 ∧ p.1 < 4 then some whitePlayer else none

/-- A game awaiting a move on the almost-won board, white to play. -/
def almostWonGame : GameState :=
  { state := STATE_MOVE, players := [whitePlayer, blackPlayer],
    current_player := whitePlayer, message := none, move_count := 0,
    board := almostWonBoard }

/-- An active cell cursor (start position (2,2) as built by Game) whose
player has navigated to the occupied cell (0,0). -/
def occupiedSelectCursor : PositionCursor :=
  { start_position := (2, 2), position := some ((0 : Int), (0 : Int)),
    player := some whitePlayer, state := STATE_ACTIVE }

end Pyntago

namespace Pyntago

/-! Helper lemmas about the rotation permutation. -/

theorem srcOf_eq_self_of_not_mem (t : List ((Int × Int) × (Int × Int))) (p : Int × Int)
    (h : p ∉ t.map Prod.snd) : srcOf t p = p := by
  have hf : t.find? (fun e => e.2 == p) = none := by
    rw [List.find?_eq_none]
    intro e he
    simp only [beq_iff_eq]
    intro hep
    exact h (List.mem_map.mpr ⟨e, he, hep⟩)
  simp [srcOf, hf]

theorem srcOf_four_id (t : List ((Int × Int) × (Int × Int)))
    (hmem : ∀ p ∈ t.map Prod.snd, srcOf t (srcOf t (srcOf t (srcOf t p))) = p)
    (p : Int × Int) : srcOf t (srcOf t (srcOf t (srcOf t p))) = p := by
  by_cases hp : p ∈ t.map Prod.snd
  · exact hmem p hp
  · simp only [srcOf_eq_self_of_not_mem t p hp]

theorem srcOf_two_id (t t' : List ((Int × Int) × (Int × Int)))
    (hsub : ∀ q ∈ t'.map Prod.snd, q ∈ t.map Prod.snd)
    (hmem : ∀ p ∈ t.map Prod.snd, srcOf t' (srcOf t p) = p)
    (p : Int × Int) : srcOf t' (srcOf t p) = p := by
  by_cases hp : p ∈ t.map Prod.snd
  · exact hmem p hp
  · rw [srcOf_eq_self_of_not_mem t p hp,
      srcOf_eq_self_of_not_mem t' p (fun hq => hp (hsub p hq))]

theorem applyTable_four_id (t : List ((Int × Int) × (Int × Int))) (board : Board)
    (hmem : ∀ p ∈ t.map Prod.snd, srcOf t (srcOf t (srcOf t (srcOf t p))) = p) :
    applyTable t (applyTable t (applyTable t (applyTable t board))) = board :=
  funext fun p => congrArg board (srcOf_four_id t hmem p)

theorem applyTable_two_id (t t' : List ((Int × Int) × (Int × Int))) (board : Board)
    (hsub : ∀ q ∈ t.map Prod.snd, q ∈ t'.map Prod.snd)
    (hmem : ∀ p ∈ t'.map Prod.snd, srcOf t (srcOf t' p) = p) :
    applyTable t' (applyTable t board) = board :=
  funext fun p => congrArg board (srcOf_two_id t' t hsub hmem p)

theorem applyTable_preserves (t : List ((Int × Int) × (Int × Int)))
    (fp : List (Int × Int)) (board : Board)
    (hperm : (grid_cells.map (srcOf t)).Perm grid_cells)
    (hsub : ∀ q ∈ t.map Prod.snd, q ∈ fp) :
    board_owners (applyTable t board) = board_owners board ∧
    board_len (applyTable t board) = board_len board ∧
    ∀ p, p ∉ fp → applyTable t board p = board p := by
  have hlist : grid_cells.filterMap (applyTable t board)
      = (grid_cells.map (srcOf t)).filterMap board := by
    rw [List.filterMap_map]
    rfl
  refine ⟨?_, ?_, ?_⟩
  · unfold board_owners
    rw [hlist]
    exact Multiset.coe_eq_coe.mpr (hperm.filterMap board)
  · unfold board_len
    rw [hlist]
    exact (hperm.filterMap board).length_eq
  · intro p hp
    exact congrArg board (srcOf_eq_self_of_not_mem t p (fun hq => hp (hsub p hq)))

/-- C3: for every board and quadrant in 0..3, four right quarter-turns are
the identity transform, and a right quarter-turn followed by a left one (and
conversely) is the identity: left is the exact inverse permutation of right. -/
theorem C3_rotate_group (board : Board) (block : Int)
    (h : block = 0 ∨ block = 1 ∨ block = 2 ∨ block = 3) :
    ((rotate board block DIRECTION_RIGHT).bind fun b1 =>
      (rotate b1 block DIRECTION_RIGHT).bind fun b2 =>
        (rotate b2 block DIRECTION_RIGHT).bind fun b3 =>
          rotate b3 block DIRECTION_RIGHT) = some board ∧
    ((rotate board block DIRECTION_RIGHT).bind fun b1 => rotate b1 block DIRECTION_LEFT)
      = some board ∧
    ((rotate board block DIRECTION_LEFT).bind fun b1 => rotate b1 block DIRECTION_RIGHT)
      = some board := by
  rcases h with rfl | rfl | rfl | rfl
  · exact ⟨congrArg some (applyTable_four_id (right_rotation 1 1) board (by decide)),
      congrArg some
        (applyTable_two_id (right_rotation 1 1) (left_rotation 1 1) board (by decide) (by decide)),
      congrArg some
        (applyTable_two_id (left_rotation 1 1) (right_rotation 1 1) board (by decide) (by decide))⟩
  · exact ⟨congrArg some (applyTable_four_id (right_rotation 4 1) board (by decide)),
      congrArg some
        (applyTable_two_id (right_rotation 4 1) (left_rotation 4 1) board (by decide) (by decide)),
      congrArg some
        (applyTable_two_id (left_rotation 4 1) (right_rotation 4 1) board (by decide) (by decide))⟩
  · exact ⟨congrArg some (applyTable_four_id (right_rotation 1 4) board (by decide)),
      congrArg some
        (applyTable_two_id (right_rotation 1 4) (left_rotation 1 4) board (by decide) (by decide)),
      congrArg some
        (applyTable_two_id (left_rotation 1 4) (right_rotation 1 4) board (by decide) (by decide))⟩
  · exact ⟨congrArg some (applyTable_four_id (right_rotation 4 4) board (by decide)),
      congrArg some
        (applyTable_two_id (right_rotation 4 4) (left_rotation 4 4) board (by decide) (by decide)),
      congrArg some
        (applyTable_two_id (left_rotation 4 4) (right_rotation 4 4) board (by decide) (by decide))⟩

theorem C3_witness :
    ((rotate cornersBoard 0 DIRECTION_RIGHT).bind fun b1 =>
      (rotate b1 0 DIRECTION_RIGHT).bind fun b2 =>
        (rotate b2 0 DIRECTION_RIGHT).bind fun b3 =>
          rotate b3 0 DIRECTION_RIGHT) = some cornersBoard ∧
    ((rotate cornersBoard 0 DIRECTION_RIGHT).bind fun b1 => rotate b1 0 DIRECTION_LEFT)
      = some cornersBoard ∧
    ((rotate cornersBoard 0 DIRECTION_LEFT).bind fun b1 => rotate b1 0 DIRECTION_RIGHT)
      = some cornersBoard :=
  C3_rotate_group cornersBoard 0 (Or.inl rfl)

/-- C4: for every board, quadrant in 0..3 and direction left or right, rotate
succeeds and the result has the same occupied-cell count and the same
multiset of owners as the input, and every cell outside the 9-cell footprint
of the quadrant keeps its original value. -/
theorem C4_rotate_preserves (board : Board) (block direction : Int)
    (hb : block = 0 ∨ block = 1 ∨ block = 2 ∨ block = 3)
    (hd : direction = DIRECTION_LEFT ∨ direction = DIRECTION_RIGHT) :
    ∃ b1, rotate board block direction = some b1 ∧
      board_owners b1 = board_owners board ∧
      board_len b1 = board_len board ∧
      ∀ p, p ∉ footprint block → b1 p = board p := by
  rcases hb with rfl | rfl | rfl | rfl <;> rcases hd with rfl | rfl <;>
    exact ⟨_, rfl, applyTable_preserves _ (footprint _) board (by decide) (by decide)⟩

theorem C4_witness :
    ∃ b1, rotate cornersBoard 0 DIRECTION_RIGHT = some b1 ∧
      board_owners b1 = board_owners cornersBoard ∧
      board_len b1 = board_len cornersBoard ∧
      ∀ p, p ∉ footprint 0 → b1 p = cornersBoard p :=
  C4_rotate_preserves cornersBoard 0 DIRECTION_RIGHT (Or.inl rfl) (Or.inr rfl)

/-- C10: rotate succeeds exactly when the quadrant is one of 0..3 and the
direction is left or right; any other input reaches the unbound-variable
fault, modelled by none. -/
theorem C10_rotate_domain (board : Board) (block direction : Int) :
    (rotate board block direction).isSome ↔
      ((block = 0 ∨ block = 1 ∨ block = 2 ∨ block = 3) ∧
        (direction = DIRECTION_LEFT ∨ direction = DIRECTION_RIGHT)) := by
  unfold rotate rotate_at
  split_ifs <;> simp_all

/-- C1: a board with all 36 cells occupied is reported as a tie immediately,
whatever line conditions hold on it. -/
theorem C1_full_board_is_tie (board : Board) (players : List Player)
    (h : board_len board = 36) : winner board players = some tiePlayer := by
  unfold winner
  rw [if_pos h]

theorem C1_witness :
    board_len fullBoard = 36 ∧
    winner fullBoard [whitePlayer, blackPlayer] = some tiePlayer ∧
    win_condition fullBoard whitePlayer = true ∧
    win_condition fullBoard blackPlayer = false :=
  ⟨by decide, C1_full_board_is_tie fullBoard [whitePlayer, blackPlayer] (by decide),
    by decide, by decide⟩

/-- C2: on a board with fewer than 36 occupied cells, a sole winning player
is reported as the winner and two simultaneous winning players are reported
as a tie. -/
theorem C2_unfull_board_rule (board : Board) (p1 p2 : Player)
    (hlen : board_len board < 36) :
    (win_condition board p1 = true ∧ win_condition board p2 = false →
        winner board [p1, p2] = some p1) ∧
    (win_condition board p1 = false ∧ win_condition board p2 = true →
        winner board [p1, p2] = some p2) ∧
    (win_condition board p1 = true ∧ win_condition board p2 = true →
        winner board [p1, p2] = some tiePlayer) := by
  unfold winner
  rw [if_neg (by omega)]
  refine ⟨fun ⟨h1, h2⟩ => ?_, fun ⟨h1, h2⟩ => ?_, fun ⟨h1, h2⟩ => ?_⟩ <;>
    simp [List.filter_cons, h1, h2]

theorem C2_witness :
    board_len stripesBoard < 36 ∧
    win_condition stripesBoard whitePlayer = true ∧
    win_condition stripesBoard blackPlayer = true ∧
    winner stripesBoard [whitePlayer, blackPlayer] = some tiePlayer :=
  ⟨by decide, by decide, by decide,
    (C2_unfull_board_rule stripesBoard whitePlayer blackPlayer (by decide)).2.2
      ⟨by decide, by decide⟩⟩

/-! Bridging the count / max_count scan of the source to the contiguous-run
reading of the spec, on lines of six flags. A diagonal of length five is
scanned with one always-false slot at one end. -/

theorem any_map_poly {α β : Type} (f : α → β) (l : List α) (p : β → Bool) :
    (l.map f).any p = l.any fun a => p (f a) := by
  induction l with
  | nil => rfl
  | cons a l ih => simp only [List.map_cons, List.any_cons, ih]

theorem scan6_run5 : ∀ b0 b1 b2 b3 b4 b5 : Bool,
    decide (5 ≤ scan_max [b0, b1, b2, b3, b4, b5]) = spec_run5 [b0, b1, b2, b3, b4, b5] := by
  decide

theorem scan6_run5_first : ∀ b1 b2 b3 b4 b5 : Bool,
    decide (5 ≤ scan_max [false, b1, b2, b3, b4, b5]) = spec_run5 [b1, b2, b3, b4, b5] := by
  decide

theorem scan6_run5_last : ∀ b0 b1 b2 b3 b4 : Bool,
    decide (5 ≤ scan_max [b0, b1, b2, b3, b4, false]) = spec_run5 [b0, b1, b2, b3, b4] := by
  decide

theorem check_rows_eq_spec (board : Board) (player : Player) :
    check_rows board player
      = ((List.range 6).map spec_row).any
          (fun line => spec_run5 (line.map fun p => is_player_at board player p.1 p.2)) := by
  unfold check_rows
  rw [any_map_poly]
  refine congrArg (List.any (List.range 6)) (funext fun y => ?_)
  exact scan6_run5 _ _ _ _ _ _

theorem check_cols_eq_spec (board : Board) (player : Player) :
    check_cols board player
      = ((List.range 6).map spec_col).any
          (fun line => spec_run5 (line.map fun p => is_player_at board player p.1 p.2)) := by
  unfold check_cols
  rw [any_map_poly]
  refine congrArg (List.any (List.range 6)) (funext fun x => ?_)
  exact scan6_run5 _ _ _ _ _ _

theorem check_desc_eq_spec (board : Board) (player : Player) :
    (([-1, 0, 1] : List Int).any fun y_offset =>
        decide (5 ≤ scan_max ((List.range 6).map fun (x : Nat) =>
          let y := y_offset + (x : Int)
          decide (0 ≤ y ∧ y < 6) && is_player_at board player (x : Int) y)))
      = (([-1, 0, 1] : List Int).map spec_desc).any
          (fun line => spec_run5 (line.map fun p => is_player_at board player p.1 p.2)) := by
  rw [any_map_poly]
  simp only [List.any_cons, List.any_nil]
  congr 1
  · exact scan6_run5_first _ _ _ _ _
  congr 1
  · exact scan6_run5 _ _ _ _ _ _
  congr 1
  · exact scan6_run5_last _ _ _ _ _

theorem check_asc_eq_spec (board : Board) (player : Player) :
    (([-1, 0, 1] : List Int).any fun y_offset =>
        decide (5 ≤ scan_max ((List.range 6).map fun (x : Nat) =>
          let y := y_offset - (x : Int) + 5
          decide (0 ≤ y ∧ y < 6) && is_player_at board player (x : Int) y)))
      = (([-1, 0, 1] : List Int).map spec_asc).any
          (fun line => spec_run5 (line.map fun p => is_player_at board player p.1 p.2)) := by
  rw [any_map_poly]
  simp only [List.any_cons, List.any_nil]
  congr 1
  · exact scan6_run5_last _ _ _ _ _
  congr 1
  · exact scan6_run5 _ _ _ _ _ _
  congr 1
  · exact scan6_run5_first _ _ _ _ _

/-- C5: the per-player win test of the source holds exactly when one of the
6 rows, 6 columns, 3 descending diagonals or 3 ascending diagonals contains
a contiguous run of at least 5 cells owned by the player. -/
theorem C5_win_condition_is_line_run (board : Board) (player : Player) :
    win_condition board player = spec_line_win board player := by
  unfold win_condition check_diagonals spec_line_win spec_lines
  rw [List.any_append, List.any_append, List.any_append]
  rw [check_rows_eq_spec board player, check_cols_eq_spec board player,
    check_desc_eq_spec board player, check_asc_eq_spec board player]
  generalize ((List.range 6).map spec_row).any _ = a
  generalize ((List.range 6).map spec_col).any _ = b
  generalize (([-1, 0, 1] : List Int).map spec_desc).any _ = c
  generalize (([-1, 0, 1] : List Int).map spec_asc).any _ = d
  revert a b c d
  decide

/-- C7: selecting an occupied cell in the awaiting-move phase is rejected
atomically: board, phase and current player unchanged, message set to the
invalid-move text, and only the message update and move UI events posted;
no fault is raised. -/
theorem C7_invalid_move_rejected (g : GameState) (pos : Int × Int)
    (hocc : (g.board pos).isSome = true) (hst : g.state = STATE_MOVE) :
    (move_finished g pos).1.board = g.board ∧
    (move_finished g pos).1.state = STATE_MOVE ∧
    (move_finished g pos).1.current_player = g.current_player ∧
    (move_finished g pos).1.message = some "Invalid move" ∧
    (move_finished g pos).2 = [GEvent.messageUpdate, GEvent.moveUI g.current_player] := by
  unfold move_finished update_message
  rw [if_pos hocc]
  exact ⟨rfl, hst, rfl, rfl, rfl⟩

theorem C7_witness :
    (move_finished almostWonGame (0, 0)).1.board = almostWonGame.board ∧
    (move_finished almostWonGame (0, 0)).1.state = STATE_MOVE ∧
    (move_finished almostWonGame (0, 0)).1.current_player = almostWonGame.current_player ∧
    (move_finished almostWonGame (0, 0)).1.message = some "Invalid move" ∧
    (move_finished almostWonGame (0, 0)).2
      = [GEvent.messageUpdate, GEvent.moveUI almostWonGame.current_player] :=
  C7_invalid_move_rejected almostWonGame (0, 0) (by decide) rfl

/-- C6 as stated is false on the code: a placement that decides the game
still posts the block-selection phase notification (and transiently sets the
phase to awaiting selection) before the win check moves the state to
finished. Concretely, placing white on (4, 0) of the almost-won board wins,
yet the block-selection UI event is among the posted events. -/
theorem C6_counterexample :
    (move_finished almostWonGame (4, 0)).1.state = STATE_FINISHED ∧
    GEvent.blockSelectionUI whitePlayer ∈ (move_finished almostWonGame (4, 0)).2 := by
  decide

/-- C6 amended: a conclusive placement ends the handler in the finished
phase without ever awaiting block-selection input, but the block-selection
notification is posted first; the event trace is exactly block selection,
message update, finished. -/
theorem C6_conclusive_placement (g : GameState) (pos : Int × Int)
    (hocc : (g.board pos).isSome = false)
    (hwin : (winner (fun q => if q = pos then some g.current_player else g.board q)
        g.players).isSome = true) :
    (move_finished g pos).1.state = STATE_FINISHED ∧
    (move_finished g pos).2
      = [GEvent.blockSelectionUI g.current_player, GEvent.messageUpdate, GEvent.finishedUI] := by
  obtain ⟨w, hw⟩ := Option.isSome_iff_exists.mp hwin
  by_cases hn : w.name = none <;>
    simp [move_finished, check_winner, update_message, hocc, hw, hn]

theorem C6_witness :
    (move_finished almostWonGame (4, 0)).1.state = STATE_FINISHED ∧
    (move_finished almostWonGame (4, 0)).2
      = [GEvent.blockSelectionUI almostWonGame.current_player, GEvent.messageUpdate,
         GEvent.finishedUI] :=
  C6_conclusive_placement almostWonGame (4, 0) (by decide) (by decide)

/-- C8: for each of the three cursors, hide is a no-op while active (nothing
changes and nothing is posted); only when the cursor is already inactive does
hide set the state to inactive and post the hidden notification. -/
theorem C8_hide_guard (b : BlockCursor) (p : PositionCursor) (d : DirectionCursor) :
    (b.state = STATE_ACTIVE → b.hide = (b, [])) ∧
    (b.state = STATE_INACTIVE →
      b.hide = ({b with state := STATE_INACTIVE}, [CursorNotice.hidden])) ∧
    (p.state = STATE_ACTIVE → p.hide = (p, [])) ∧
    (p.state = STATE_INACTIVE →
      p.hide = ({p with state := STATE_INACTIVE}, [CursorNotice.hidden])) ∧
    (d.state = STATE_ACTIVE → d.hide = (d, [])) ∧
    (d.state = STATE_INACTIVE →
      d.hide = ({d with state := STATE_INACTIVE}, [CursorNotice.hidden])) := by
  refine ⟨fun h => ?_, fun h => ?_, fun h => ?_, fun h => ?_, fun h => ?_, fun h => ?_⟩ <;>
    simp [BlockCursor.hide, PositionCursor.hide, DirectionCursor.hide, h,
      STATE_ACTIVE, STATE_INACTIVE]

theorem C8_witness :
    BlockCursor.hide ⟨0, none, none, STATE_ACTIVE⟩ = (⟨0, none, none, STATE_ACTIVE⟩, []) ∧
    BlockCursor.hide ⟨0, none, none, STATE_INACTIVE⟩
      = (⟨0, none, none, STATE_INACTIVE⟩, [CursorNotice.hidden]) ∧
    PositionCursor.hide ⟨(2, 2), none, none, STATE_ACTIVE⟩
      = (⟨(2, 2), none, none, STATE_ACTIVE⟩, []) ∧
    PositionCursor.hide ⟨(2, 2), none, none, STATE_INACTIVE⟩
      = (⟨(2, 2), none, none, STATE_INACTIVE⟩, [CursorNotice.hidden]) ∧
    DirectionCursor.hide ⟨none, none, STATE_ACTIVE⟩ = (⟨none, none, STATE_ACTIVE⟩, []) ∧
    DirectionCursor.hide ⟨none, none, STATE_INACTIVE⟩
      = (⟨none, none, STATE_INACTIVE⟩, [CursorNotice.hidden]) := by
  have h1 := C8_hide_guard ⟨0, none, none, STATE_ACTIVE⟩ ⟨(2, 2), none, none, STATE_ACTIVE⟩
    ⟨none, none, STATE_ACTIVE⟩
  have h2 := C8_hide_guard ⟨0, none, none, STATE_INACTIVE⟩ ⟨(2, 2), none, none, STATE_INACTIVE⟩
    ⟨none, none, STATE_INACTIVE⟩
  exact ⟨h1.1 rfl, h2.2.1 rfl, h1.2.2.1 rfl, h2.2.2.2.1 rfl, h1.2.2.2.2.1 rfl, h2.2.2.2.2.2 rfl⟩

/-- C9: when a select on an occupied cell is rejected, the move UI event
posted by the rejection re-places the cell cursor: it ends active at the
fixed start position (2, 2) for the unchanged current player, and the
previously selected position is not preserved; the board is unchanged. -/
theorem C9_reject_resets_cursor (g : GameState) (pc : PositionCursor) (pos : Int × Int)
    (hg : g.state = STATE_MOVE) (hpc : pc.state = STATE_ACTIVE)
    (hpos : pc.position = some pos) (hocc : (g.board pos).isSome = true)
    (hstart : pc.start_position = (2, 2)) :
    (select_on_cursor g pc).2.position = some ((2 : Int), (2 : Int)) ∧
    (select_on_cursor g pc).2.state = STATE_ACTIVE ∧
    (select_on_cursor g pc).2.player = some g.current_player ∧
    (select_on_cursor g pc).1.board = g.board := by
  simp [select_on_cursor, move_finished, update_message, PositionCursor.notifyGame,
    PositionCursor.place, hg, hpc, hpos, hocc, hstart, STATE_ACTIVE, STATE_INACTIVE]

theorem C9_witness :
    (select_on_cursor almostWonGame occupiedSelectCursor).2.position
      = some ((2 : Int), (2 : Int)) ∧
    (select_on_cursor almostWonGame occupiedSelectCursor).2.state = STATE_ACTIVE ∧
    (select_on_cursor almostWonGame occupiedSelectCursor).2.player
      = some almostWonGame.current_player ∧
    (select_on_cursor almostWonGame occupiedSelectCursor).1.board = almostWonGame.board :=
  C9_reject_resets_cursor almostWonGame occupiedSelectCursor (0, 0) rfl rfl rfl (by decide) rfl

end Pyntago
